import Mathlib

/-!
A verification development for the SDOH ETL pipeline
(`backend/api/db_loader.py`, `backend/api/db_setup_fresh.py`).

Modelling conventions (shallow embedding of the Python source):
* A Python value obtained from decoded JSON is `Option Json`; `none` is
  Python `None` (the JSON decoder maps JSON `null` to `None` at every level,
  so `Json` itself has no null constructor).
* Python dicts are association lists with unique keys (a Python dict can
  never hold a duplicate key); lookup is first-match.
* SQLite stored values are `Cell`s.  Integer and real affinity are collapsed
  into `Cell.real` (SQLite compares 1 and 1.0 equal; every key this program
  uses is TEXT, where the collapse is irrelevant).
* Python exceptions are the `PyErr` error type of an `Except` result; an
  operation that raises before any commit leaves the store unchanged.
-/

/-- Decidable equality for `Except` results. -/
instance {ε α : Type} [DecidableEq ε] [DecidableEq α] : DecidableEq (Except ε α) :=
  fun a b =>
    match a, b with
    | .ok x, .ok y =>
      if h : x = y then .isTrue (by rw [h]) else .isFalse (by simp [h])
    | .error x, .error y =>
      if h : x = y then .isTrue (by rw [h]) else .isFalse (by simp [h])
    | .ok _, .error _ => .isFalse (by simp)
    | .error _, .ok _ => .isFalse (by simp)

/-- Prefix test on strings by character-list comparison (the model's
`str.startswith`). -/
def strStartsWith (s p : String) : Bool :=
  p.data.isPrefixOf s.data

/-- A non-null JSON value as decoded into Python objects.  JSON `null`
decodes to Python `None` and is therefore represented by `Option.none`
around this type, not by a constructor. -/
inductive Json : Type where
  | bool (b : Bool) : Json
  | num (q : Rat) : Json
  | str (s : String) : Json
  | arr (elems : List (Option Json)) : Json
  | obj (fields : List (String × Option Json)) : Json

/-- Python truthiness of a decoded-JSON value (`if json_data:`):
`None`, `False`, `0`, `""`, `[]` and `{}` are falsy. -/
def pyTruthy : Option Json → Bool
  | none => false
  | some (.bool b) => b
  | some (.num q) => !(q == 0)
  | some (.str s) => !(s == "")
  | some (.arr xs) => !xs.isEmpty
  | some (.obj kvs) => !kvs.isEmpty

/-- Lookup of a key in a Python dict (association list, unique keys). -/
def lookupKey (kvs : List (String × Option Json)) (k : String) : Option (Option Json) :=
  (kvs.find? (fun p => p.1 == k)).map (fun p => p.2)

/-- Python exceptions raised by the loader code paths. -/
inductive PyErr : Type where
  /-- `ValueError` for a non-200 API response status code. -/
  | apiFailure (status : Nat) : PyErr
  /-- `ValueError("Must provide either json_data, csv_path, or api_response")`. -/
  | invalidInput : PyErr
  /-- `UnboundLocalError`: `df` referenced at the final write step without
  ever having been assigned. -/
  | unboundLocal : PyErr
  /-- `AttributeError`: `.get` called on a value that is not a dict. -/
  | attributeError : PyErr
  /-- `TypeError`: iterating a value that is not a sequence. -/
  | typeError : PyErr
  /-- `sqlite3.InterfaceError`: binding a list or dict as a SQL parameter. -/
  | interfaceError : PyErr
  /-- `sqlite3.IntegrityError`: UNIQUE / primary-key constraint violated. -/
  | integrityError : PyErr
deriving DecidableEq, Repr

/-- A value stored in a SQLite column.  `NULL` is represented by `Option.none`
around this type.  Integer and real affinity are collapsed into `real`. -/
inductive Cell : Type where
  | text (s : String) : Cell
  | real (q : Rat) : Cell
deriving DecidableEq, Repr

/-- SQLite parameter binding of a Python value (`sqlite3` adapts `None` to
NULL, bool to an integer, numbers and strings directly; a list or dict
cannot be bound and raises `InterfaceError`).  pandas `to_sql` also converts
`NaN`/`None` frame entries to `None` before binding. -/
def toCell : Option Json → Except PyErr (Option Cell)
  | none => .ok none
  | some (.bool b) => .ok (some (.real (if b then 1 else 0)))
  | some (.num q) => .ok (some (.real q))
  | some (.str s) => .ok (some (.text s))
  | some (.arr _) => .error .interfaceError
  | some (.obj _) => .error .interfaceError

/-- `d.get(k)` on a Python dict: `None` when the key is absent, the stored
value otherwise; raises `AttributeError` when the receiver is not a dict. -/
def dictGet (v : Option Json) (k : String) : Except PyErr (Option Json) :=
  match v with
  | some (.obj kvs) => .ok ((lookupKey kvs k).getD none)
  | _ => .error .attributeError

/-- `d.get(k, default)` on a Python dict: the default only substitutes for a
missing key, not for a stored `None`. -/
def dictGetD (v : Option Json) (k : String) (dflt : Option Json) :
    Except PyErr (Option Json) :=
  match v with
  | some (.obj kvs) => .ok ((lookupKey kvs k).getD dflt)
  | _ => .error .attributeError

/-- One row of the `svi_data` table as held in a pandas record
(Python values, before SQL binding).  Built at `db_loader.py` lines 70-83. -/
structure SviRecord : Type where
  fips : Option Json
  state : Option Json
  county : Option Json
  location : Option Json
  overall_svi : Option Json
  socioeconomic_svi : Option Json
  household_svi : Option Json
  minority_svi : Option Json
  housing_transport_svi : Option Json
  last_updated : String

/-- One stored row of the `svi_data` table (SQLite cells). -/
structure SviRow : Type where
  fips : Option Cell
  state : Option Cell
  county : Option Cell
  location : Option Cell
  overall_svi : Option Cell
  socioeconomic_svi : Option Cell
  household_svi : Option Cell
  minority_svi : Option Cell
  housing_transport_svi : Option Cell
  last_updated : String
deriving DecidableEq, Repr

/-- One row of the `places_data` table as held in a pandas record
(Python values).  Built at `db_loader.py` lines 156-168. -/
structure PlacesRecord : Type where
  location_id : Option Json
  location_type : Option Json
  measure_id : Option Json
  measure : Option Json
  data_value : Option Json
  confidence_limit_low : Option Json
  confidence_limit_high : Option Json
  year : Option Json
  last_updated : String

/-- One stored row of the `places_data` table (SQLite cells). -/
structure PlacesRow : Type where
  location_id : Option Cell
  location_type : Option Cell
  measure_id : Option Cell
  measure : Option Cell
  data_value : Option Cell
  confidence_limit_low : Option Cell
  confidence_limit_high : Option Cell
  year : Option Cell
  last_updated : String
deriving DecidableEq, Repr

/-- One row of the `data_sources` registry table
(`db_setup_fresh.py` lines 111-119). -/
structure SourceRow : Type where
  source_name : String
  source_url : Option String
  last_updated : Option String
  update_frequency : Option String
  description : Option String
deriving DecidableEq, Repr

/-- The committed contents of the three tables the loader touches. -/
structure DB : Type where
  svi_data : List SviRow
  places_data : List PlacesRow
  data_sources : List SourceRow
deriving DecidableEq, Repr

/-- A parsed HTTP response as the loaders see it: a status code and the
decoded JSON body (`response.json()`). -/
structure ApiResponse : Type where
  status_code : Nat
  body : Option Json

/-- The outcome of one load call: the committed store afterwards and either
the number of rows the call reported, or the Python exception it raised. -/
structure LoadOutcome : Type where
  db : DB
  result : Except PyErr Nat
deriving DecidableEq, Repr

/-- `json_data.get('features', [])` followed by iterating the result
(`db_loader.py` lines 68-70): `AttributeError` when the payload is not a
dict, `TypeError` when the stored `features` value is not a sequence
(hence also when it is `None`). -/
def sviFeatures (j : Json) : Except PyErr (List (Option Json)) :=
  match j with
  | .obj kvs =>
    match (lookupKey kvs "features").getD (some (.arr [])) with
    | some (.arr fs) => .ok fs
    | _ => .error .typeError
  | _ => .error .attributeError

/-- Builds one SVI record from one feature (`db_loader.py` lines 70-83):
`attr = feature.get('attributes', {})` then one `attr.get` per column, the
batch timestamp as `last_updated`. -/
def sviRecordOfFeature (now : String) (feature : Option Json) :
    Except PyErr SviRecord :=
  match dictGetD feature "attributes" (some (.obj [])) with
  | .error e => .error e
  | .ok attr =>
    match attr with
    | some (.obj akvs) =>
      .ok { fips := (lookupKey akvs "FIPS").getD none
            state := (lookupKey akvs "STATE").getD none
            county := (lookupKey akvs "COUNTY").getD none
            location := (lookupKey akvs "LOCATION").getD none
            overall_svi := (lookupKey akvs "RPL_THEMES").getD none
            socioeconomic_svi := (lookupKey akvs "RPL_THEME1").getD none
            household_svi := (lookupKey akvs "RPL_THEME2").getD none
            minority_svi := (lookupKey akvs "RPL_THEME3").getD none
            housing_transport_svi := (lookupKey akvs "RPL_THEME4").getD none
            last_updated := now }
    | _ => .error .attributeError

/-- The SVI record batch built from a truthy JSON payload
(`db_loader.py` lines 66-85). -/
def sviNormalize (now : String) (j : Json) : Except PyErr (List SviRecord) :=
  match sviFeatures j with
  | .error e => .error e
  | .ok features => features.mapM (sviRecordOfFeature now)

/-- Shape detection for a PLACES payload (`db_loader.py` lines 150-154):
a bare list is used as is, otherwise `json_data.get('results', [])`.
Iterating a non-sequence `results` value raises. -/
def placesItems (j : Json) : Except PyErr (List (Option Json)) :=
  match j with
  | .arr xs => .ok xs
  | .obj kvs =>
    match (lookupKey kvs "results").getD (some (.arr [])) with
    | some (.arr ys) => .ok ys
    | _ => .error .typeError
  | _ => .error .attributeError

/-- Builds one PLACES record from one item (`db_loader.py` lines 156-168). -/
def placesRecordOfItem (now : String) (item : Option Json) :
    Except PyErr PlacesRecord :=
  match item with
  | some (.obj kvs) =>
    .ok { location_id := (lookupKey kvs "locationid").getD none
          location_type := (lookupKey kvs "locationtype").getD none
          measure_id := (lookupKey kvs "measureid").getD none
          measure := (lookupKey kvs "measure").getD none
          data_value := (lookupKey kvs "data_value").getD none
          confidence_limit_low := (lookupKey kvs "low_confidence_limit").getD none
          confidence_limit_high := (lookupKey kvs "high_confidence_limit").getD none
          year := (lookupKey kvs "year").getD none
          last_updated := now }
  | _ => .error .attributeError

/-- The PLACES record batch built from a truthy JSON payload
(`db_loader.py` lines 146-170). -/
def placesNormalize (now : String) (j : Json) : Except PyErr (List PlacesRecord) :=
  match placesItems j with
  | .error e => .error e
  | .ok items => items.mapM (placesRecordOfItem now)

/-- SQL binding of one SVI record's fields for the `INSERT` run by
`df.to_sql('svi_data', ..., if_exists='append')`. -/
def sviRowOfRecord (r : SviRecord) : Except PyErr SviRow :=
  match toCell r.fips, toCell r.state, toCell r.county, toCell r.location,
      toCell r.overall_svi, toCell r.socioeconomic_svi, toCell r.household_svi,
      toCell r.minority_svi, toCell r.housing_transport_svi with
  | .ok fips, .ok state, .ok county, .ok location, .ok overall, .ok theme1,
      .ok theme2, .ok theme3, .ok theme4 =>
    .ok { fips := fips, state := state, county := county, location := location,
          overall_svi := overall, socioeconomic_svi := theme1,
          household_svi := theme2, minority_svi := theme3,
          housing_transport_svi := theme4, last_updated := r.last_updated }
  | _, _, _, _, _, _, _, _, _ => .error .interfaceError

/-- SQL binding of one PLACES record's fields. -/
def placesRowOfRecord (r : PlacesRecord) : Except PyErr PlacesRow :=
  match toCell r.location_id, toCell r.location_type, toCell r.measure_id,
      toCell r.measure, toCell r.data_value, toCell r.confidence_limit_low,
      toCell r.confidence_limit_high, toCell r.year with
  | .ok locId, .ok locType, .ok measureId, .ok measure, .ok dataValue,
      .ok lo, .ok hi, .ok year =>
    .ok { location_id := locId, location_type := locType,
          measure_id := measureId, measure := measure, data_value := dataValue,
          confidence_limit_low := lo, confidence_limit_high := hi,
          year := year, last_updated := r.last_updated }
  | _, _, _, _, _, _, _, _ => .error .interfaceError

/-- Primary-key conflict between two `svi_data` rows: `fips TEXT PRIMARY KEY`.
SQLite treats NULL key values as distinct, so only equal non-NULL keys
conflict. -/
def sviKeyConflict (a b : SviRow) : Bool :=
  match a.fips, b.fips with
  | some x, some y => x == y
  | _, _ => false

/-- Composite-key conflict between two `places_data` rows:
`PRIMARY KEY (location_id, measure_id)`; a NULL in either key column makes a
row distinct from every other. -/
def placesKeyConflict (a b : PlacesRow) : Bool :=
  (match a.location_id, b.location_id with
   | some x, some y => x == y
   | _, _ => false) &&
  (match a.measure_id, b.measure_id with
   | some x, some y => x == y
   | _, _ => false)

/-- The row-by-row plain `INSERT` that `to_sql(..., if_exists='append')`
issues: each record is bound and appended; a key conflict raises
`IntegrityError` and the whole statement batch is rolled back (the caller
keeps the pre-call table on error). -/
def insertRows {ρ α : Type} (bind' : ρ → Except PyErr α) (conflict : α → α → Bool) :
    List α → List ρ → Except PyErr (List α)
  | table, [] => .ok table
  | table, r :: rs =>
    match bind' r with
    | .error e => .error e
    | .ok row =>
      if table.any (fun t => conflict t row) then .error .integrityError
      else insertRows bind' conflict (table ++ [row]) rs

/-- Phase 1 of a successful SVI load: pandas `to_sql` runs the batch INSERT
and commits its own transaction (`pandas.io.sql.SQLiteDatabase.run_transaction`
calls `self.con.commit()` before returning), so on success these rows are
durable before the registry update runs. -/
def sviInsertCommit (db : DB) (records : List SviRecord) : Except PyErr DB :=
  match insertRows sviRowOfRecord sviKeyConflict db.svi_data records with
  | .ok t => .ok { db with svi_data := t }
  | .error e => .error e

/-- Phase 1 of a successful PLACES load, as `sviInsertCommit`. -/
def placesInsertCommit (db : DB) (records : List PlacesRecord) : Except PyErr DB :=
  match insertRows placesRowOfRecord placesKeyConflict db.places_data records with
  | .ok t => .ok { db with places_data := t }
  | .error e => .error e

/-- Phase 2: `UPDATE data_sources SET last_updated = ? WHERE source_name = ?`
followed by `conn.commit()`. -/
def updateSourceTime (db : DB) (name now : String) : DB :=
  { db with data_sources := db.data_sources.map (fun s =>
      if s.source_name == name then { s with last_updated := some now } else s) }

/-- The parsed content of a CSV file for the SVI loader: one record per data
row, columns matching the `svi_data` schema (the file the caller supplies).
`pd.read_csv` itself is external; the filesystem is a total map from path to
parsed rows. -/
structure SviCsvRow : Type where
  fips : Option Json
  state : Option Json
  county : Option Json
  location : Option Json
  overall_svi : Option Json
  socioeconomic_svi : Option Json
  household_svi : Option Json
  minority_svi : Option Json
  housing_transport_svi : Option Json

/-- The parsed content of a CSV file for the PLACES loader. -/
structure PlacesCsvRow : Type where
  location_id : Option Json
  location_type : Option Json
  measure_id : Option Json
  measure : Option Json
  data_value : Option Json
  confidence_limit_low : Option Json
  confidence_limit_high : Option Json
  year : Option Json

/-- `df['last_updated'] = current_time` over a CSV-read SVI frame
(`db_loader.py` line 100). -/
def sviRecordOfCsvRow (now : String) (r : SviCsvRow) : SviRecord :=
  { fips := r.fips, state := r.state, county := r.county,
    location := r.location, overall_svi := r.overall_svi,
    socioeconomic_svi := r.socioeconomic_svi, household_svi := r.household_svi,
    minority_svi := r.minority_svi,
    housing_transport_svi := r.housing_transport_svi, last_updated := now }

/-- `df['last_updated'] = current_time` over a CSV-read PLACES frame
(`db_loader.py` line 185). -/
def placesRecordOfCsvRow (now : String) (r : PlacesCsvRow) : PlacesRecord :=
  { location_id := r.location_id, location_type := r.location_type,
    measure_id := r.measure_id, measure := r.measure,
    data_value := r.data_value, confidence_limit_low := r.confidence_limit_low,
    confidence_limit_high := r.confidence_limit_high, year := r.year,
    last_updated := now }

/-- The `df` variable of `load_svi_data` after the
`if json_data: ... elif csv_path: ...` chain (`db_loader.py` lines 65-100):
`none` means `df` was never assigned (both branches skipped because both
values are falsy).  The string truthiness test on `csv_path` is the `elif`
guard. -/
def sviFrame (fs : String → List SviCsvRow) (now : String)
    (json_data : Option Json) (csv_path : Option String) :
    Except PyErr (Option (List SviRecord)) :=
  if pyTruthy json_data then
    match json_data with
    | some j => (sviNormalize now j).map some
    | none => .error .unboundLocal
  else
    match csv_path with
    | some p => if p == "" then .ok none else .ok (some ((fs p).map (sviRecordOfCsvRow now)))
    | none => .ok none

/-- The `df` variable of `load_places_data` after the branch chain
(`db_loader.py` lines 146-185). -/
def placesFrame (fs : String → List PlacesCsvRow) (now : String)
    (json_data : Option Json) (csv_path : Option String) :
    Except PyErr (Option (List PlacesRecord)) :=
  if pyTruthy json_data then
    match json_data with
    | some j => (placesNormalize now j).map some
    | none => .error .unboundLocal
  else
    match csv_path with
    | some p => if p == "" then .ok none else .ok (some ((fs p).map (placesRecordOfCsvRow now)))
    | none => .ok none

/-- The final write step of `load_svi_data` (`db_loader.py` lines 102-118):
referencing an unassigned `df` raises; an empty frame prints and reports zero
rows; otherwise the rows are appended (committed by `to_sql`) and then the
`CDC_SVI` registry row is stamped and committed. -/
def sviWrite (db : DB) (now : String) (df : Option (List SviRecord)) : LoadOutcome :=
  match df with
  | none => { db := db, result := .error .unboundLocal }
  | some records =>
    if records.isEmpty then { db := db, result := .ok 0 }
    else
      match sviInsertCommit db records with
      | .error e => { db := db, result := .error e }
      | .ok db' => { db := updateSourceTime db' "CDC_SVI" now, result := .ok records.length }

/-- The final write step of `load_places_data` (`db_loader.py` lines 187-203). -/
def placesWrite (db : DB) (now : String) (df : Option (List PlacesRecord)) : LoadOutcome :=
  match df with
  | none => { db := db, result := .error .unboundLocal }
  | some records =>
    if records.isEmpty then { db := db, result := .ok 0 }
    else
      match placesInsertCommit db records with
      | .error e => { db := db, result := .error e }
      | .ok db' => { db := updateSourceTime db' "CDC_PLACES" now, result := .ok records.length }

/-- `load_svi_data` from the supplied-input check onward (`db_loader.py`
lines 59-118): the check at lines 59-60, the frame build, the write step. -/
def loadSviChecked (fs : String → List SviCsvRow) (db : DB) (now : String)
    (json_data : Option Json) (csv_path : Option String) : LoadOutcome :=
  if json_data.isNone && csv_path.isNone then
    { db := db, result := .error .invalidInput }
  else
    match sviFrame fs now json_data csv_path with
    | .error e => { db := db, result := .error e }
    | .ok df => sviWrite db now df

/-- `load_svi_data` (`db_loader.py` lines 39-118).  `fs` is the filesystem
seen by `pd.read_csv`; `now` is the single `datetime.now().isoformat()`
captured at line 63.  The api-response branch replaces `json_data` by the
decoded body; then the supplied-input check; then the frame build; then the
write step. -/
def load_svi_data (fs : String → List SviCsvRow) (db : DB) (now : String)
    (json_data : Option Json) (csv_path : Option String)
    (api_response : Option ApiResponse) : LoadOutcome :=
  match api_response with
  | some r =>
    if r.status_code == 200 then
      loadSviChecked fs db now r.body csv_path
    else { db := db, result := .error (.apiFailure r.status_code) }
  | none => loadSviChecked fs db now json_data csv_path

/-- `load_places_data` from the supplied-input check onward
(`db_loader.py` lines 140-203). -/
def loadPlacesChecked (fs : String → List PlacesCsvRow) (db : DB) (now : String)
    (json_data : Option Json) (csv_path : Option String) : LoadOutcome :=
  if json_data.isNone && csv_path.isNone then
    { db := db, result := .error .invalidInput }
  else
    match placesFrame fs now json_data csv_path with
    | .error e => { db := db, result := .error e }
    | .ok df => placesWrite db now df

/-- `load_places_data` (`db_loader.py` lines 120-203). -/
def load_places_data (fs : String → List PlacesCsvRow) (db : DB) (now : String)
    (json_data : Option Json) (csv_path : Option String)
    (api_response : Option ApiResponse) : LoadOutcome :=
  match api_response with
  | some r =>
    if r.status_code == 200 then
      loadPlacesChecked fs db now r.body csv_path
    else { db := db, result := .error (.apiFailure r.status_code) }
  | none => loadPlacesChecked fs db now json_data csv_path

/-- The committed store when execution dies between the row insert and the
registry update of an SVI load: `to_sql` has already committed the inserted
rows in its own transaction, the registry `UPDATE` never runs; if the insert
itself failed, its transaction was rolled back. -/
def sviCrashAfterInsert (db : DB) (records : List SviRecord) : DB :=
  match sviInsertCommit db records with
  | .ok db' => db'
  | .error _ => db

/-- The result dict of `query_location_data` (`db_loader.py` lines 211-216). -/
structure QueryResult : Type where
  location_id : String
  location_type : String
  svi_data : Option SviRow
  places_data : List PlacesRow
deriving DecidableEq, Repr

/-- `query_location_data` (`db_loader.py` lines 205-235): pure read.  The SVI
part is filled only when `location_type == 'tract'`, with `fetchone` on
`SELECT * FROM svi_data WHERE fips = ?` (first matching row); the PLACES part
is every row matching `location_id = ? AND location_type = ?`.  SQL `=`
against a bound string matches only an equal TEXT cell; a NULL column never
matches. -/
def query_location_data (db : DB) (location_id : String)
    (location_type : String) : QueryResult :=
  { location_id := location_id
    location_type := location_type
    svi_data :=
      if location_type == "tract" then
        db.svi_data.find? (fun r => r.fips == some (.text location_id))
      else none
    places_data :=
      db.places_data.filter (fun r =>
        r.location_id == some (.text location_id) &&
        r.location_type == some (.text location_type)) }

/-- Errors raised by `SDOHDatabaseLoader._check_database`. -/
inductive CheckErr : Type where
  /-- `FileNotFoundError`: no file at the database path. -/
  | notFound : CheckErr
  /-- `ValueError`: the named required table is missing. -/
  | schemaMissing (table : String) : CheckErr
deriving DecidableEq, Repr

/-- The database file as `_check_database` sees it: the names listed in
`sqlite_master` (a missing file is `none` at the call sites below). -/
structure StoreFile : Type where
  tables : List String
deriving DecidableEq, Repr

/-- The three tables `_check_database` requires (`db_loader.py` line 31),
in the order they are checked. -/
def requiredTables : List String := ["svi_data", "places_data", "data_sources"]

/-- `SDOHDatabaseLoader._check_database` (`db_loader.py` lines 19-37):
the `os.path.exists` test runs before any `sqlite3.connect`, so an absent
file is reported without being created; with the file present, the table
names are read and the first missing required table is reported.  The second
component is the store after the call. -/
def check_database (store : Option StoreFile) :
    Except CheckErr Unit × Option StoreFile :=
  match store with
  | none => (.error .notFound, none)
  | some s =>
    match requiredTables.find? (fun t => !s.tables.contains t) with
    | some t => (.error (.schemaMissing t), some s)
    | none => (.ok (), some s)

/-- One column of a declared table schema: name and declared type. -/
structure ColumnDef : Type where
  cname : String
  ctype : String
deriving DecidableEq, Repr

/-- A table as recorded in `sqlite_master`: name, columns, primary-key
columns, and whether the integer key is AUTOINCREMENT. -/
structure TableSchema : Type where
  tname : String
  columns : List ColumnDef
  primaryKey : List String
  autoincrement : Bool
deriving DecidableEq, Repr

/-- A non-unique index: name, indexed table, indexed column. -/
structure IndexDef : Type where
  iname : String
  table : String
  column : String
deriving DecidableEq, Repr

/-- The store as `setup_fresh_database` manipulates it: the user tables of
`sqlite_master` (SQLite's internal bookkeeping tables are not modelled; a
user table can never be named with the reserved `sqlite_` prefix), the
user indexes, and the rows of the `data_sources` table.  Row contents of the
other tables do not survive the drop step and are not modelled. -/
structure SchemaState : Type where
  tables : List TableSchema
  indexes : List IndexDef
  sourceRows : List SourceRow
deriving DecidableEq, Repr

/-- A state that a real SQLite file can exhibit: every index belongs to an
existing user table (`DROP TABLE` removes a table's indexes with it), and
rows of `data_sources` exist only if that table exists. -/
def SchemaState.WF (s : SchemaState) : Prop :=
  (∀ i ∈ s.indexes, s.tables.any (fun t => t.tname == i.table) = true) ∧
  (s.tables.any (fun t => t.tname == "data_sources") = false → s.sourceRows = [])

/-- The drop loop of `setup_fresh_database` (`db_setup_fresh.py` lines
32-38): every table whose name does not start with `sqlite_` is dropped,
taking its indexes and rows with it. -/
def dropUserTables (s : SchemaState) : SchemaState :=
  let kept := s.tables.filter (fun t => strStartsWith t.tname "sqlite_")
  { tables := kept
    indexes := s.indexes.filter (fun i => kept.any (fun t => t.tname == i.table))
    sourceRows :=
      if s.tables.any (fun t => t.tname == "data_sources") &&
         !kept.any (fun t => t.tname == "data_sources") then []
      else s.sourceRows }

/-- `CREATE TABLE IF NOT EXISTS`: a no-op when a table of that name exists. -/
def createTableIfNotExists (s : SchemaState) (t : TableSchema) : SchemaState :=
  if s.tables.any (fun u => u.tname == t.tname) then s
  else { s with tables := s.tables ++ [t] }

/-- `CREATE INDEX IF NOT EXISTS`: a no-op when an index of that name exists. -/
def createIndexIfNotExists (s : SchemaState) (i : IndexDef) : SchemaState :=
  if s.indexes.any (fun j => j.iname == i.iname) then s
  else { s with indexes := s.indexes ++ [i] }

/-- `INSERT OR REPLACE INTO data_sources`: on a `source_name` conflict the
existing row is replaced, otherwise the row is appended. -/
def upsertSource (rows : List SourceRow) (t : SourceRow) : List SourceRow :=
  if rows.any (fun r => r.source_name == t.source_name) then
    rows.map (fun r => if r.source_name == t.source_name then t else r)
  else rows ++ [t]

/-- The `svi_data` schema (`db_setup_fresh.py` lines 44-57). -/
def sviTable : TableSchema :=
  { tname := "svi_data"
    columns := [⟨"fips", "TEXT"⟩, ⟨"state", "TEXT"⟩, ⟨"county", "TEXT"⟩,
      ⟨"location", "TEXT"⟩, ⟨"overall_svi", "REAL"⟩,
      ⟨"socioeconomic_svi", "REAL"⟩, ⟨"household_svi", "REAL"⟩,
      ⟨"minority_svi", "REAL"⟩, ⟨"housing_transport_svi", "REAL"⟩,
      ⟨"last_updated", "TEXT"⟩]
    primaryKey := ["fips"]
    autoincrement := false }

/-- The `adi_data` schema (`db_setup_fresh.py` lines 61-71). -/
def adiTable : TableSchema :=
  { tname := "adi_data"
    columns := [⟨"block_group_id", "TEXT"⟩, ⟨"state", "TEXT"⟩,
      ⟨"county", "TEXT"⟩, ⟨"adi_national_rank", "INTEGER"⟩,
      ⟨"adi_state_rank", "INTEGER"⟩, ⟨"adi_national_decile", "INTEGER"⟩,
      ⟨"last_updated", "TEXT"⟩]
    primaryKey := ["block_group_id"]
    autoincrement := false }

/-- The `places_data` schema (`db_setup_fresh.py` lines 75-88). -/
def placesTable : TableSchema :=
  { tname := "places_data"
    columns := [⟨"location_id", "TEXT"⟩, ⟨"location_type", "TEXT"⟩,
      ⟨"measure_id", "TEXT"⟩, ⟨"measure", "TEXT"⟩, ⟨"data_value", "REAL"⟩,
      ⟨"confidence_limit_low", "REAL"⟩, ⟨"confidence_limit_high", "REAL"⟩,
      ⟨"year", "TEXT"⟩, ⟨"last_updated", "TEXT"⟩]
    primaryKey := ["location_id", "measure_id"]
    autoincrement := false }

/-- The `user_locations` schema (`db_setup_fresh.py` lines 92-107). -/
def userLocationsTable : TableSchema :=
  { tname := "user_locations"
    columns := [⟨"id", "INTEGER"⟩, ⟨"user_id", "TEXT"⟩,
      ⟨"location_name", "TEXT"⟩, ⟨"address", "TEXT"⟩, ⟨"latitude", "REAL"⟩,
      ⟨"longitude", "REAL"⟩, ⟨"census_tract", "TEXT"⟩,
      ⟨"block_group", "TEXT"⟩, ⟨"zcta", "TEXT"⟩, ⟨"created_date", "TEXT"⟩]
    primaryKey := ["id"]
    autoincrement := true }

/-- The `data_sources` schema (`db_setup_fresh.py` lines 111-119). -/
def dataSourcesTable : TableSchema :=
  { tname := "data_sources"
    columns := [⟨"source_name", "TEXT"⟩, ⟨"source_url", "TEXT"⟩,
      ⟨"last_updated", "TEXT"⟩, ⟨"update_frequency", "TEXT"⟩,
      ⟨"description", "TEXT"⟩]
    primaryKey := ["source_name"]
    autoincrement := false }

/-- The six indexes created at `db_setup_fresh.py` lines 123-128. -/
def declaredIndexes : List IndexDef :=
  [⟨"idx_svi_state", "svi_data", "state"⟩,
   ⟨"idx_svi_county", "svi_data", "county"⟩,
   ⟨"idx_adi_state", "adi_data", "state"⟩,
   ⟨"idx_adi_county", "adi_data", "county"⟩,
   ⟨"idx_places_measure_id", "places_data", "measure_id"⟩,
   ⟨"idx_places_location_type", "places_data", "location_type"⟩]

/-- The three seed rows of `data_sources` (`db_setup_fresh.py` lines
131-138): null timestamps. -/
def initialSources : List SourceRow :=
  [{ source_name := "CDC_SVI"
     source_url := some "https://onemap.cdc.gov/OneMapServices/rest/services/SVI/CDC_ATSDR_Social_Vulnerability_Index_2020_USA/MapServer"
     last_updated := none, update_frequency := some "Annual"
     description := some "CDC/ATSDR Social Vulnerability Index data" },
   { source_name := "ADI"
     source_url := some "https://www.neighborhoodatlas.medicine.wisc.edu/"
     last_updated := none, update_frequency := some "Variable"
     description := some "Area Deprivation Index from Neighborhood Atlas" },
   { source_name := "CDC_PLACES"
     source_url := some "https://data.cdc.gov/api"
     last_updated := none, update_frequency := some "Annual"
     description := some "CDC PLACES health indicators" }]

/-- `setup_fresh_database` (`db_setup_fresh.py` lines 6-147): optionally drop
every user table, create the five tables and six indexes if absent, seed the
registry with `INSERT OR REPLACE`, commit. -/
def setup_fresh_database (s : SchemaState) (delete_existing : Bool) : SchemaState :=
  let s1 := if delete_existing && !s.tables.isEmpty then dropUserTables s else s
  let s2 := [sviTable, adiTable, placesTable, userLocationsTable,
             dataSourcesTable].foldl createTableIfNotExists s1
  let s3 := declaredIndexes.foldl createIndexIfNotExists s2
  { s3 with sourceRows := initialSources.foldl upsertSource s3.sourceRows }

/-- The state `setup_fresh_database` establishes: exactly the five declared
tables, the six declared indexes, and the three seed registry rows with null
timestamps. -/
def freshSchemaState : SchemaState :=
  { tables := [sviTable, adiTable, placesTable, userLocationsTable, dataSourcesTable]
    indexes := declaredIndexes
    sourceRows := initialSources }

/-! ## Helper lemmas -/

theorem insertRows_ok {ρ α : Type} (bind' : ρ → Except PyErr α)
    (conflict : α → α → Bool) :
    ∀ (batch : List ρ) (table out : List α),
    insertRows bind' conflict table batch = .ok out →
    ∃ rows, out = table ++ rows ∧ rows.length = batch.length ∧
      ∀ row ∈ rows, ∃ r ∈ batch, bind' r = .ok row := by
  intro batch
  induction batch with
  | nil =>
    intro table out h
    simp only [insertRows] at h
    exact ⟨[], by simpa using h.symm, rfl, by simp⟩
  | cons r0 rs ih =>
    intro table out h
    simp only [insertRows] at h
    cases hb : bind' r0 with
    | error e => rw [hb] at h; exact absurd h (by simp)
    | ok row0 =>
      rw [hb] at h
      dsimp only at h
      by_cases hc : table.any (fun t => conflict t row0) = true
      · rw [if_pos hc] at h; exact absurd h (by simp)
      · rw [if_neg hc] at h
        obtain ⟨rows', hout, hlen, hmem⟩ := ih (table ++ [row0]) out h
        refine ⟨row0 :: rows', by simpa using hout, by simpa using hlen, ?_⟩
        intro row hrow
        rcases List.mem_cons.mp hrow with h1 | h1
        · exact ⟨r0, List.mem_cons_self _ _, h1 ▸ hb⟩
        · obtain ⟨r, hr, hbr⟩ := hmem row h1
          exact ⟨r, List.mem_cons_of_mem _ hr, hbr⟩

theorem insertRows_conflict {ρ α : Type} (bind' : ρ → Except PyErr α)
    (conflict : α → α → Bool) :
    ∀ (batch : List ρ) (table : List α),
    (∀ r ∈ batch, ∃ row, bind' r = .ok row) →
    (∃ r ∈ batch, ∃ row, bind' r = .ok row ∧ ∃ t ∈ table, conflict t row = true) →
    insertRows bind' conflict table batch = .error .integrityError := by
  intro batch
  induction batch with
  | nil =>
    intro table _ hconf
    simp at hconf
  | cons r0 rs ih =>
    intro table hbind hconf
    obtain ⟨row0, hb0⟩ := hbind r0 (List.mem_cons_self _ _)
    simp only [insertRows, hb0]
    by_cases hc : table.any (fun t => conflict t row0) = true
    · rw [if_pos hc]
    · rw [if_neg hc]
      apply ih (table ++ [row0])
      · intro r hr; exact hbind r (List.mem_cons_of_mem _ hr)
      · obtain ⟨r, hr, row, hbr, t, ht, hct⟩ := hconf
        rcases List.mem_cons.mp hr with h1 | h1
        · subst h1
          rw [hb0] at hbr
          cases hbr
          exact absurd (List.any_eq_true.mpr ⟨t, ht, hct⟩) hc
        · exact ⟨r, h1, row, hbr, t, List.mem_append_left _ ht, hct⟩

theorem mapM_ok_mem {α β : Type} (f : α → Except PyErr β) :
    ∀ (xs : List α) (ys : List β), xs.mapM f = .ok ys →
    ∀ y ∈ ys, ∃ x ∈ xs, f x = .ok y := by
  intro xs
  induction xs with
  | nil =>
    intro ys h y hy
    simp only [List.mapM_nil] at h
    cases h
    simp at hy
  | cons x0 xs ih =>
    intro ys h y hy
    rw [List.mapM_cons] at h
    cases hf : f x0 with
    | error e => rw [hf] at h; exact absurd h (by simp [Bind.bind, Except.bind])
    | ok y0 =>
      rw [hf] at h
      cases hrest : xs.mapM f with
      | error e =>
        rw [hrest] at h
        exact absurd h (by simp [Bind.bind, Except.bind, Pure.pure, Except.pure])
      | ok ys' =>
        rw [hrest] at h
        have : ys = y0 :: ys' := by
          simpa [Bind.bind, Except.bind, Pure.pure, Except.pure] using h.symm
        subst this
        rcases List.mem_cons.mp hy with h1 | h1
        · exact ⟨x0, List.mem_cons_self _ _, h1 ▸ hf⟩
        · obtain ⟨x, hx, hfx⟩ := ih ys' hrest y h1
          exact ⟨x, List.mem_cons_of_mem _ hx, hfx⟩

theorem sviRecordOfFeature_stamp (now : String) (f : Option Json)
    (rec : SviRecord) (h : sviRecordOfFeature now f = .ok rec) :
    rec.last_updated = now := by
  unfold sviRecordOfFeature at h
  split at h
  · exact absurd h (by simp)
  · split at h
    · cases h; rfl
    · exact absurd h (by simp)

theorem placesRecordOfItem_stamp (now : String) (it : Option Json)
    (rec : PlacesRecord) (h : placesRecordOfItem now it = .ok rec) :
    rec.last_updated = now := by
  unfold placesRecordOfItem at h
  split at h
  · cases h; rfl
  · exact absurd h (by simp)

theorem sviRowOfRecord_stamp (rec : SviRecord) (row : SviRow)
    (h : sviRowOfRecord rec = .ok row) : row.last_updated = rec.last_updated := by
  unfold sviRowOfRecord at h
  split at h
  · cases h; rfl
  · exact absurd h (by simp)

theorem placesRowOfRecord_stamp (rec : PlacesRecord) (row : PlacesRow)
    (h : placesRowOfRecord rec = .ok row) : row.last_updated = rec.last_updated := by
  unfold placesRowOfRecord at h
  split at h
  · cases h; rfl
  · exact absurd h (by simp)

theorem sviNormalize_stamp (now : String) (j : Json) (records : List SviRecord)
    (h : sviNormalize now j = .ok records) :
    ∀ rec ∈ records, rec.last_updated = now := by
  intro rec hrec
  unfold sviNormalize at h
  split at h
  · exact absurd h (by simp)
  · obtain ⟨f, _, hf⟩ := mapM_ok_mem _ _ _ h rec hrec
    exact sviRecordOfFeature_stamp now f rec hf

theorem placesNormalize_stamp (now : String) (j : Json)
    (records : List PlacesRecord) (h : placesNormalize now j = .ok records) :
    ∀ rec ∈ records, rec.last_updated = now := by
  intro rec hrec
  unfold placesNormalize at h
  split at h
  · exact absurd h (by simp)
  · obtain ⟨it, _, hf⟩ := mapM_ok_mem _ _ _ h rec hrec
    exact placesRecordOfItem_stamp now it rec hf

theorem sviFrame_stamp (fs : String → List SviCsvRow) (now : String)
    (jd : Option Json) (cp : Option String) (records : List SviRecord)
    (h : sviFrame fs now jd cp = .ok (some records)) :
    ∀ rec ∈ records, rec.last_updated = now := by
  intro rec hrec
  unfold sviFrame at h
  split at h
  · split at h
    · cases hn : sviNormalize now _ with
      | error e => rw [hn] at h; exact absurd h (by simp [Except.map])
      | ok recs =>
        rw [hn] at h
        simp only [Except.map, Except.ok.injEq, Option.some.injEq] at h
        exact sviNormalize_stamp now _ records (h ▸ hn) rec hrec
    · exact absurd h (by simp)
  · split at h
    · split at h
      · exact absurd h (by simp)
      · simp only [Except.ok.injEq, Option.some.injEq] at h
        rw [← h] at hrec
        obtain ⟨r0, _, rfl⟩ := List.mem_map.mp hrec
        rfl
    · exact absurd h (by simp)

theorem placesFrame_stamp (fs : String → List PlacesCsvRow) (now : String)
    (jd : Option Json) (cp : Option String) (records : List PlacesRecord)
    (h : placesFrame fs now jd cp = .ok (some records)) :
    ∀ rec ∈ records, rec.last_updated = now := by
  intro rec hrec
  unfold placesFrame at h
  split at h
  · split at h
    · cases hn : placesNormalize now _ with
      | error e => rw [hn] at h; exact absurd h (by simp [Except.map])
      | ok recs =>
        rw [hn] at h
        simp only [Except.map, Except.ok.injEq, Option.some.injEq] at h
        exact placesNormalize_stamp now _ records (h ▸ hn) rec hrec
    · exact absurd h (by simp)
  · split at h
    · split at h
      · exact absurd h (by simp)
      · simp only [Except.ok.injEq, Option.some.injEq] at h
        rw [← h] at hrec
        obtain ⟨r0, _, rfl⟩ := List.mem_map.mp hrec
        rfl
    · exact absurd h (by simp)

theorem updateSourceTime_stamped (db : DB) (name now : String) :
    ∀ s ∈ (updateSourceTime db name now).data_sources,
      s.source_name = name → s.last_updated = some now := by
  intro s hs hname
  simp only [updateSourceTime, List.mem_map] at hs
  obtain ⟨s0, _, rfl⟩ := hs
  by_cases hb : (s0.source_name == name) = true
  · simp [hb]
  · rw [if_neg hb] at hname ⊢
    exact absurd (by simpa using hname) (by simpa using hb)

theorem mapM_ok_forall {α β : Type} (f : α → Except PyErr β) :
    ∀ (xs : List α) (ys : List β), xs.mapM f = .ok ys →
    ∀ x ∈ xs, ∃ y, f x = .ok y := by
  intro xs
  induction xs with
  | nil => intro ys _ x hx; simp at hx
  | cons x0 xs ih =>
    intro ys h x hx
    rw [List.mapM_cons] at h
    cases hf : f x0 with
    | error e => rw [hf] at h; exact absurd h (by simp [Bind.bind, Except.bind])
    | ok y0 =>
      rw [hf] at h
      cases hrest : xs.mapM f with
      | error e =>
        rw [hrest] at h
        exact absurd h (by simp [Bind.bind, Except.bind, Pure.pure, Except.pure])
      | ok ys' =>
        rcases List.mem_cons.mp hx with h1 | h1
        · exact ⟨y0, h1 ▸ hf⟩
        · exact ih ys' hrest x h1

/-! ## Shared concrete fixtures -/

/-- A filesystem with no CSV content, for calls that do not read a file. -/
def sviFsEmpty : String → List SviCsvRow := fun _ => []

/-- A filesystem with no CSV content, for calls that do not read a file. -/
def placesFsEmpty : String → List PlacesCsvRow := fun _ => []

/-- A freshly prepared store: empty data tables, seeded registry. -/
def dbPrepared : DB :=
  { svi_data := [], places_data := [], data_sources := initialSources }

/-- An SVI payload with one feature: FIPS `01001020100`, overall score 1. -/
def sviPayloadA : Json :=
  .obj [("features", some (.arr [some (.obj [("attributes",
    some (.obj [("FIPS", some (.str "01001020100")),
                ("RPL_THEMES", some (.num 1))]))])]))]

/-- The same tract with a different overall score 2, as a second batch. -/
def sviPayloadB : Json :=
  .obj [("features", some (.arr [some (.obj [("attributes",
    some (.obj [("FIPS", some (.str "01001020100")),
                ("RPL_THEMES", some (.num 2))]))])]))]

/-! ## Claims -/

/-- C3: constructing the loader fails with `FileNotFoundError` when no file
exists at the path, fails with a `ValueError` naming a missing required
table (`svi_data`, `places_data` or `data_sources`) when the file exists
but lacks one, and in neither case modifies the store or creates a table:
`check_database` always returns the store it was given. -/
theorem C3_check_database (store : Option StoreFile) :
    (check_database store).2 = store ∧
    (store = none → (check_database store).1 = .error .notFound) ∧
    (∀ f, store = some f → ∀ t ∈ requiredTables, t ∉ f.tables →
      ∃ t', t' ∈ requiredTables ∧ t' ∉ f.tables ∧
        (check_database store).1 = .error (.schemaMissing t')) := by
  refine ⟨?_, ?_, ?_⟩
  · cases store with
    | none => rfl
    | some f =>
      unfold check_database
      dsimp only
      cases hf : requiredTables.find? (fun t => !f.tables.contains t) <;> rfl
  · intro h; subst h; rfl
  · intro f hstore t ht htabs
    subst hstore
    unfold check_database
    dsimp only
    cases hf : requiredTables.find? (fun t => !f.tables.contains t) with
    | some t' =>
      refine ⟨t', List.mem_of_find?_eq_some hf, ?_, rfl⟩
      have := List.find?_some hf
      simpa using this
    | none =>
      exfalso
      have := List.find?_eq_none.mp hf t ht
      simp only [Bool.not_eq_true', Bool.not_eq_false] at this
      exact htabs (by simpa using this)

theorem C3_witness :
    (check_database none).2 = none ∧
    (check_database none).1 = .error .notFound ∧
    ∃ t', t' ∈ requiredTables ∧ t' ∉ ["svi_data"] ∧
      (check_database (some ⟨["svi_data"]⟩)).1 = .error (.schemaMissing t') :=
  ⟨(C3_check_database none).1,
   (C3_check_database none).2.1 rfl,
   (C3_check_database (some ⟨["svi_data"]⟩)).2.2 ⟨["svi_data"]⟩ rfl
     "places_data" (by decide) (by decide)⟩

/-- C4: a load call given neither a parsed-JSON value, nor a CSV path, nor
an API response raises `ValueError` ("Must provide either json_data,
csv_path, or api_response") and leaves the store unchanged, for both
`load_svi_data` and `load_places_data`. -/
theorem C4_no_input_invalid (fs : String → List SviCsvRow)
    (pfs : String → List PlacesCsvRow) (db : DB) (now : String) :
    load_svi_data fs db now none none none =
      { db := db, result := .error .invalidInput } ∧
    load_places_data pfs db now none none none =
      { db := db, result := .error .invalidInput } :=
  ⟨rfl, rfl⟩

/-- C10: a payload that is non-`None` but falsy (an empty dict for SVI; an
empty list or dict for PLACES) with no CSV path passes the supplied-input
check, skips both frame-building branches, and dies with
`UnboundLocalError` at the final write step — not the declared
`InvalidInput` error and not the empty-batch no-op — leaving the store
unchanged. -/
theorem C10_falsy_payload_unbound (fs : String → List SviCsvRow)
    (pfs : String → List PlacesCsvRow) (db : DB) (now : String) (j : Json)
    (h : pyTruthy (some j) = false) :
    load_svi_data fs db now (some j) none none =
      { db := db, result := .error .unboundLocal } ∧
    load_places_data pfs db now (some j) none none =
      { db := db, result := .error .unboundLocal } := by
  constructor
  · unfold load_svi_data loadSviChecked sviFrame
    simp [h, sviWrite]
  · unfold load_places_data loadPlacesChecked placesFrame
    simp [h, placesWrite]

theorem C10_witness :
    load_svi_data sviFsEmpty dbPrepared "t" (some (.obj [])) none none =
      { db := dbPrepared, result := .error .unboundLocal } ∧
    load_places_data placesFsEmpty dbPrepared "t" (some (.arr [])) none none =
      { db := dbPrepared, result := .error .unboundLocal } :=
  ⟨(C10_falsy_payload_unbound sviFsEmpty placesFsEmpty dbPrepared "t"
      (.obj []) (by decide)).1,
   (C10_falsy_payload_unbound sviFsEmpty placesFsEmpty dbPrepared "t"
      (.arr []) (by decide)).2⟩

/-- C5: when the normalized batch is empty — a truthy SVI payload whose
features list normalizes to no records, a truthy PLACES payload with no
items, or a named CSV file with no data rows — the load is a no-op that
reports zero rows and is not an error: the destination table and the
`data_sources` timestamps are both unchanged. -/
theorem C5_empty_batch_noop :
    (∀ (fs : String → List SviCsvRow) (db : DB) (now : String) (j : Json)
        (cp : Option String), pyTruthy (some j) = true →
      sviNormalize now j = .ok ([] : List SviRecord) →
      load_svi_data fs db now (some j) cp none = { db := db, result := .ok 0 }) ∧
    (∀ (pfs : String → List PlacesCsvRow) (db : DB) (now : String) (j : Json)
        (cp : Option String), pyTruthy (some j) = true →
      placesNormalize now j = .ok ([] : List PlacesRecord) →
      load_places_data pfs db now (some j) cp none = { db := db, result := .ok 0 }) ∧
    (∀ (fs : String → List SviCsvRow) (db : DB) (now : String) (p : String),
      p ≠ "" → fs p = [] →
      load_svi_data fs db now none (some p) none = { db := db, result := .ok 0 }) := by
  refine ⟨?_, ?_, ?_⟩
  · intro fs db now j cp ht hn
    unfold load_svi_data loadSviChecked sviFrame
    simp [ht, hn, sviWrite, Except.map]
  · intro pfs db now j cp ht hn
    unfold load_places_data loadPlacesChecked placesFrame
    simp [ht, hn, placesWrite, Except.map]
  · intro fs db now p hp hfs
    have hb : (p == "") = false := beq_eq_false_iff_ne.mpr hp
    unfold load_svi_data loadSviChecked sviFrame
    simp [hb, hfs, sviWrite, pyTruthy]

theorem C5_witness :
    load_svi_data sviFsEmpty dbPrepared "t"
      (some (.obj [("features", some (.arr []))])) none none =
      { db := dbPrepared, result := .ok 0 } :=
  C5_empty_batch_noop.1 sviFsEmpty dbPrepared "t"
    (.obj [("features", some (.arr []))]) none (by decide) rfl

/-- C7: the PLACES normalizer accepts both payload shapes uniformly: a bare
list is normalized as exactly those items; an envelope object is normalized
as exactly the sequence stored under `results` (the empty sequence when the
key is absent); and the two shapes produce the same normalized records for
the same underlying sequence. -/
theorem C7_payload_shapes (xs : List (Option Json))
    (kvs : List (String × Option Json)) (now : String) :
    placesItems (.arr xs) = .ok xs ∧
    (lookupKey kvs "results" = some (some (.arr xs)) →
      placesItems (.obj kvs) = .ok xs) ∧
    (lookupKey kvs "results" = none → placesItems (.obj kvs) = .ok []) ∧
    (lookupKey kvs "results" = some (some (.arr xs)) →
      placesNormalize now (.obj kvs) = placesNormalize now (.arr xs)) := by
  refine ⟨rfl, ?_, ?_, ?_⟩
  · intro h; simp [placesItems, h]
  · intro h; simp [placesItems, h]
  · intro h; simp [placesNormalize, placesItems, h]

theorem C7_witness :
    placesItems (.obj [("results", some (.arr [some (.str "x")]))]) =
      .ok [some (.str "x")] ∧
    placesNormalize "t" (.obj [("results", some (.arr [some (.str "x")]))]) =
      placesNormalize "t" (.arr [some (.str "x")]) ∧
    placesItems (.obj [("other", none)]) = .ok [] :=
  ⟨(C7_payload_shapes [some (.str "x")]
      [("results", some (.arr [some (.str "x")]))] "t").2.1 rfl,
   (C7_payload_shapes [some (.str "x")]
      [("results", some (.arr [some (.str "x")]))] "t").2.2.2 rfl,
   (C7_payload_shapes [] [("other", none)] "t").2.2.1 rfl⟩

/-- C8: `query_location_data` is a pure read returning the first `svi_data`
row whose `fips` equals the location id only when the location type is
`tract` (no SVI part otherwise, and none when no row matches), together with
exactly the `places_data` rows matching the (location id, location type)
pair; when nothing matches the result is empty, never an error. -/
theorem C8_query_location (db : DB) (locId locType : String) :
    (locType ≠ "tract" → (query_location_data db locId locType).svi_data = none) ∧
    (∀ r, (query_location_data db locId locType).svi_data = some r →
      locType = "tract" ∧ r ∈ db.svi_data ∧ r.fips = some (.text locId)) ∧
    ((∀ r ∈ db.svi_data, r.fips ≠ some (.text locId)) →
      (query_location_data db locId locType).svi_data = none) ∧
    (∀ r, r ∈ (query_location_data db locId locType).places_data ↔
      r ∈ db.places_data ∧ r.location_id = some (.text locId) ∧
        r.location_type = some (.text locType)) := by
  refine ⟨?_, ?_, ?_, ?_⟩
  · intro h
    have hb : (locType == "tract") = false := beq_eq_false_iff_ne.mpr h
    simp [query_location_data, hb]
  · intro r h
    unfold query_location_data at h
    dsimp only at h
    by_cases hb : (locType == "tract") = true
    · rw [if_pos hb] at h
      refine ⟨by simpa using hb, List.mem_of_find?_eq_some h, ?_⟩
      have := List.find?_some h
      simpa using this
    · rw [if_neg hb] at h
      exact absurd h (by simp)
  · intro hnone
    unfold query_location_data
    dsimp only
    by_cases hb : (locType == "tract") = true
    · rw [if_pos hb]
      apply List.find?_eq_none.mpr
      intro r hr
      simpa using hnone r hr
    · rw [if_neg hb]
  · intro r
    simp only [query_location_data, List.mem_filter, Bool.and_eq_true, beq_iff_eq]

/-- The SVI row of the spec's query example: tract `01001020100`. -/
def sviRowExample : SviRow :=
  { fips := some (.text "01001020100"), state := none, county := none,
    location := none, overall_svi := none, socioeconomic_svi := none,
    household_svi := none, minority_svi := none,
    housing_transport_svi := none, last_updated := "t0" }

/-- A PLACES row for the query example with the given measure id. -/
def placesRowExample (m : String) : PlacesRow :=
  { location_id := some (.text "01001020100"),
    location_type := some (.text "tract"),
    measure_id := some (.text m), measure := none, data_value := none,
    confidence_limit_low := none, confidence_limit_high := none,
    year := none, last_updated := "t0" }

/-- The store of the spec's query example: one SVI row and two PLACES rows
(measures CSMOKING and OBESITY) for location `01001020100`. -/
def dbQueryExample : DB :=
  { svi_data := [sviRowExample]
    places_data := [placesRowExample "CSMOKING", placesRowExample "OBESITY"]
    data_sources := initialSources }

theorem C8_witness :
    ((query_location_data dbQueryExample "01001020100" "county").svi_data = none) ∧
    ((query_location_data dbPrepared "01001020100" "tract").svi_data = none) ∧
    (placesRowExample "CSMOKING" ∈
      (query_location_data dbQueryExample "01001020100" "tract").places_data) :=
  ⟨(C8_query_location dbQueryExample "01001020100" "county").1 (by decide),
   (C8_query_location dbPrepared "01001020100" "tract").2.2.1 (by decide),
   ((C8_query_location dbQueryExample "01001020100" "tract").2.2.2
      (placesRowExample "CSMOKING")).mpr (by decide)⟩

theorem setup_drop_phase (s : SchemaState) (hw : s.WF)
    (hn : ∀ t ∈ s.tables, strStartsWith t.tname "sqlite_" = false) :
    (if true && !s.tables.isEmpty then dropUserTables s else s) =
      ({ tables := [], indexes := [], sourceRows := [] } : SchemaState) := by
  have hkept : s.tables.filter (fun t => strStartsWith t.tname "sqlite_") = [] :=
    List.filter_eq_nil_iff.mpr (fun t ht => by simp [hn t ht])
  by_cases he : s.tables.isEmpty
  · rw [if_neg (by simp [he])]
    have htab : s.tables = [] := List.isEmpty_iff.mp he
    have hsrc : s.sourceRows = [] := hw.2 (by simp [htab])
    have hidx : s.indexes = [] := by
      cases hix : s.indexes with
      | nil => rfl
      | cons i is =>
        have hmem := hw.1 i (by rw [hix]; exact List.mem_cons_self _ _)
        rw [htab] at hmem
        exact absurd hmem (by simp)
    cases s
    simp_all
  · rw [if_pos (by simp [he])]
    unfold dropUserTables
    rw [hkept]
    simp only [SchemaState.mk.injEq, true_and]
    refine ⟨?_, ?_⟩
    · exact List.filter_eq_nil_iff.mpr (fun i _ => by simp)
    · by_cases hds : s.tables.any (fun t => t.tname == "data_sources") = true
      · simp [hds]
      · simp only [Bool.not_eq_true] at hds
        simp [hds, hw.2 hds]

/-- C9: from any initial store state a real SQLite file can exhibit,
`setup_fresh_database` with `delete_existing` drops every user table and
rebuilds exactly the five declared tables with their declared keys, the six
declared indexes, and a registry of exactly the three seed rows with null
timestamps (`freshSchemaState` spells these out); running it again
reproduces the same state (idempotence). -/
theorem C9_setup_fresh (s : SchemaState) (hw : s.WF)
    (hn : ∀ t ∈ s.tables, strStartsWith t.tname "sqlite_" = false) :
    setup_fresh_database s true = freshSchemaState ∧
    setup_fresh_database (setup_fresh_database s true) true =
      setup_fresh_database s true := by
  have h1 : setup_fresh_database s true = freshSchemaState := by
    simp only [setup_fresh_database]
    rw [setup_drop_phase s hw hn]
    decide
  have h2 : setup_fresh_database freshSchemaState true = freshSchemaState := by
    decide
  exact ⟨h1, by rw [h1, h2]⟩

theorem C9_witness :
    setup_fresh_database
      { tables := [{ tname := "leftover", columns := [⟨"a", "TEXT"⟩],
                     primaryKey := [], autoincrement := false }]
        indexes := [⟨"idx_leftover", "leftover", "a"⟩]
        sourceRows := [] } true = freshSchemaState :=
  (C9_setup_fresh
    { tables := [{ tname := "leftover", columns := [⟨"a", "TEXT"⟩],
                   primaryKey := [], autoincrement := false }]
      indexes := [⟨"idx_leftover", "leftover", "a"⟩]
      sourceRows := [] }
    (by constructor <;> decide) (by decide)).1

/-- C1 counterexample: loading tract `01001020100` (overall score 1) and
then re-loading the same fips with score 2 does NOT leave a row with the
second call's values: the second call raises `IntegrityError`
(`to_sql(..., if_exists='append')` issues a plain INSERT, not
insert-or-replace) and the surviving row still carries the first call's
score 1, with the timestamp of the first call. -/
theorem C1_counterexample :
    (load_svi_data sviFsEmpty
        (load_svi_data sviFsEmpty dbPrepared "t1" (some sviPayloadA) none none).db
        "t2" (some sviPayloadB) none none).result = .error .integrityError ∧
    (load_svi_data sviFsEmpty
        (load_svi_data sviFsEmpty dbPrepared "t1" (some sviPayloadA) none none).db
        "t2" (some sviPayloadB) none none).db.svi_data.map
        (fun r => (r.fips, r.overall_svi, r.last_updated)) =
      [(some (.text "01001020100"), some (.real 1), "t1")] := by
  constructor
  · decide
  · decide

/-- C1 amended: re-loading a batch that contains a record whose (non-null)
fips key already appears in `svi_data` makes `load_svi_data` fail with
`IntegrityError` and leaves the store unchanged — so after loading a record
and calling again with the same fips, exactly one row with that key remains
and it still holds the FIRST call's non-key fields; re-loading is an error,
not an update. -/
theorem C1_amended_append_conflict (fs : String → List SviCsvRow) (db : DB)
    (now : String) (j : Json) (records : List SviRecord) (rows : List SviRow)
    (ht : pyTruthy (some j) = true)
    (hn : sviNormalize now j = .ok records)
    (hrows : records.mapM sviRowOfRecord = .ok rows)
    (hconf : ∃ row ∈ rows, ∃ t ∈ db.svi_data, sviKeyConflict t row = true) :
    load_svi_data fs db now (some j) none none =
      { db := db, result := .error .integrityError } := by
  have hins : insertRows sviRowOfRecord sviKeyConflict db.svi_data records =
      .error .integrityError := by
    apply insertRows_conflict
    · exact mapM_ok_forall _ records rows hrows
    · obtain ⟨row, hrow, t, htm, hctm⟩ := hconf
      obtain ⟨rec, hrec, hbr⟩ := mapM_ok_mem _ records rows hrows row hrow
      exact ⟨rec, hrec, row, hbr, t, htm, hctm⟩
  have hemp : records.isEmpty = false := by
    cases hrec : records with
    | nil =>
      obtain ⟨row, hrow, _⟩ := hconf
      rw [hrec, List.mapM_nil] at hrows
      have hrnil : rows = [] := by
        simpa [Pure.pure, Except.pure] using hrows.symm
      rw [hrnil] at hrow
      simp at hrow
    | cons a l => rfl
  unfold load_svi_data loadSviChecked sviFrame
  simp [ht, hn, Except.map, sviWrite, sviInsertCommit, hins, hemp]

theorem C1_amended_witness :
    load_svi_data sviFsEmpty
        (load_svi_data sviFsEmpty dbPrepared "t1" (some sviPayloadA) none none).db
        "t2" (some sviPayloadB) none none =
      { db := (load_svi_data sviFsEmpty dbPrepared "t1"
                 (some sviPayloadA) none none).db,
        result := .error .integrityError } :=
  C1_amended_append_conflict sviFsEmpty _ "t2" sviPayloadB _ _
    (by decide) rfl rfl (by decide)

/-- One SVI record (tract `01001020100`, overall score 1, stamp `t1`) as the
normalizer would produce it. -/
def sviRecA : SviRecord :=
  { fips := some (.str "01001020100"), state := none, county := none,
    location := none, overall_svi := some (.num 1), socioeconomic_svi := none,
    household_svi := none, minority_svi := none,
    housing_transport_svi := none, last_updated := "t1" }

/-- The stored row for `sviRecA` after SQL binding. -/
def sviRowA : SviRow :=
  { fips := some (.text "01001020100"), state := none, county := none,
    location := none, overall_svi := some (.real 1), socioeconomic_svi := none,
    household_svi := none, minority_svi := none,
    housing_transport_svi := none, last_updated := "t1" }

/-- C2 counterexample: a failure simulated between the row insert and the
registry update of an SVI load does NOT leave both changes unapplied: the
row count has grown from 0 to 1 (pandas `to_sql` commits the insert in its
own transaction) while the registry timestamp is unchanged — exactly the
partial application the claim rules out. -/
theorem C2_counterexample :
    (sviCrashAfterInsert dbPrepared [sviRecA]).svi_data.length = 1 ∧
    dbPrepared.svi_data.length = 0 ∧
    (sviCrashAfterInsert dbPrepared [sviRecA]).data_sources =
      dbPrepared.data_sources := by
  constructor
  · decide
  · constructor
    · decide
    · decide

/-- C2 amended: the two writes are separate transactions.  Whenever the
batch insert succeeds, a failure between the insert and the registry update
leaves the inserted rows committed (the table grew by the whole batch)
while `data_sources` is unchanged: partial application occurs; atomicity of
the pair does not hold. -/
theorem C2_amended_partial_commit (db : DB) (records : List SviRecord)
    (out : List SviRow)
    (h : insertRows sviRowOfRecord sviKeyConflict db.svi_data records = .ok out) :
    (sviCrashAfterInsert db records).svi_data = out ∧
    (∃ rows, out = db.svi_data ++ rows ∧ rows.length = records.length) ∧
    (sviCrashAfterInsert db records).data_sources = db.data_sources ∧
    (sviCrashAfterInsert db records).places_data = db.places_data := by
  have hcommit : sviInsertCommit db records = .ok { db with svi_data := out } := by
    unfold sviInsertCommit
    rw [h]
  have hcrash : sviCrashAfterInsert db records = { db with svi_data := out } := by
    unfold sviCrashAfterInsert
    rw [hcommit]
  obtain ⟨rows, hrows, hlen, _⟩ := insertRows_ok _ _ records db.svi_data out h
  exact ⟨by rw [hcrash], ⟨rows, hrows, hlen⟩, by rw [hcrash], by rw [hcrash]⟩

theorem C2_amended_witness :
    (sviCrashAfterInsert dbPrepared [sviRecA]).svi_data = [sviRowA] ∧
    (∃ rows, [sviRowA] = dbPrepared.svi_data ++ rows ∧
      rows.length = [sviRecA].length) ∧
    (sviCrashAfterInsert dbPrepared [sviRecA]).data_sources =
      dbPrepared.data_sources ∧
    (sviCrashAfterInsert dbPrepared [sviRecA]).places_data =
      dbPrepared.places_data :=
  C2_amended_partial_commit dbPrepared [sviRecA] [sviRowA] (by decide)

theorem sviWrite_ok (db : DB) (now : String) (df : Option (List SviRecord))
    (n : Nat) (h : (sviWrite db now df).result = .ok n) (hn : 0 < n) :
    ∃ records rows, df = some records ∧ n = records.length ∧
      rows.length = records.length ∧
      (∀ row ∈ rows, ∃ rec ∈ records, sviRowOfRecord rec = .ok row) ∧
      sviWrite db now df =
        { db := updateSourceTime { db with svi_data := db.svi_data ++ rows }
            "CDC_SVI" now,
          result := .ok records.length } := by
  cases df with
  | none => exact absurd h (by simp [sviWrite])
  | some records =>
    by_cases he : records.isEmpty = true
    · rw [show sviWrite db now (some records) = { db := db, result := .ok 0 }
          from by simp [sviWrite, he]] at h
      simp only at h
      cases h
      exact absurd hn (by simp)
    · rw [Bool.not_eq_true] at he
      cases hic : sviInsertCommit db records with
      | error e =>
        rw [show sviWrite db now (some records) = { db := db, result := .error e }
            from by simp [sviWrite, he, hic]] at h
        simp at h
      | ok db' =>
        have hw : sviWrite db now (some records) =
            { db := updateSourceTime db' "CDC_SVI" now,
              result := .ok records.length } := by
          simp [sviWrite, he, hic]
        unfold sviInsertCommit at hic
        cases hir : insertRows sviRowOfRecord sviKeyConflict db.svi_data records with
        | error e => rw [hir] at hic; exact absurd hic (by simp)
        | ok t =>
          rw [hir] at hic
          simp only [Except.ok.injEq] at hic
          obtain ⟨rows, ht, hlen, hmem⟩ := insertRows_ok _ _ records db.svi_data t hir
          refine ⟨records, rows, rfl, ?_, hlen, hmem, ?_⟩
          · rw [hw] at h
            simpa using h.symm
          · rw [hw, ← hic, ht]

theorem placesWrite_ok (db : DB) (now : String) (df : Option (List PlacesRecord))
    (n : Nat) (h : (placesWrite db now df).result = .ok n) (hn : 0 < n) :
    ∃ records rows, df = some records ∧ n = records.length ∧
      rows.length = records.length ∧
      (∀ row ∈ rows, ∃ rec ∈ records, placesRowOfRecord rec = .ok row) ∧
      placesWrite db now df =
        { db := updateSourceTime { db with places_data := db.places_data ++ rows }
            "CDC_PLACES" now,
          result := .ok records.length } := by
  cases df with
  | none => exact absurd h (by simp [placesWrite])
  | some records =>
    by_cases he : records.isEmpty = true
    · rw [show placesWrite db now (some records) = { db := db, result := .ok 0 }
          from by simp [placesWrite, he]] at h
      simp only at h
      cases h
      exact absurd hn (by simp)
    · rw [Bool.not_eq_true] at he
      cases hic : placesInsertCommit db records with
      | error e =>
        rw [show placesWrite db now (some records) = { db := db, result := .error e }
            from by simp [placesWrite, he, hic]] at h
        simp at h
      | ok db' =>
        have hw : placesWrite db now (some records) =
            { db := updateSourceTime db' "CDC_PLACES" now,
              result := .ok records.length } := by
          simp [placesWrite, he, hic]
        unfold placesInsertCommit at hic
        cases hir : insertRows placesRowOfRecord placesKeyConflict db.places_data records with
        | error e => rw [hir] at hic; exact absurd hic (by simp)
        | ok t =>
          rw [hir] at hic
          simp only [Except.ok.injEq] at hic
          obtain ⟨rows, ht, hlen, hmem⟩ := insertRows_ok _ _ records db.places_data t hir
          refine ⟨records, rows, rfl, ?_, hlen, hmem, ?_⟩
          · rw [hw] at h
            simpa using h.symm
          · rw [hw, ← hic, ht]

theorem loadSviChecked_ok (fs : String → List SviCsvRow) (db : DB) (now : String)
    (jd : Option Json) (cp : Option String) (n : Nat)
    (h : (loadSviChecked fs db now jd cp).result = .ok n) :
    ∃ df, sviFrame fs now jd cp = .ok df ∧
      loadSviChecked fs db now jd cp = sviWrite db now df := by
  unfold loadSviChecked at h ⊢
  by_cases hc : (jd.isNone && cp.isNone) = true
  · rw [if_pos hc] at h; simp at h
  · rw [if_neg hc] at h ⊢
    cases hf : sviFrame fs now jd cp with
    | error e =>
      rw [hf] at h
      dsimp only at h
      exact absurd h (by simp)
    | ok df => exact ⟨df, rfl, rfl⟩

theorem loadPlacesChecked_ok (fs : String → List PlacesCsvRow) (db : DB)
    (now : String) (jd : Option Json) (cp : Option String) (n : Nat)
    (h : (loadPlacesChecked fs db now jd cp).result = .ok n) :
    ∃ df, placesFrame fs now jd cp = .ok df ∧
      loadPlacesChecked fs db now jd cp = placesWrite db now df := by
  unfold loadPlacesChecked at h ⊢
  by_cases hc : (jd.isNone && cp.isNone) = true
  · rw [if_pos hc] at h; simp at h
  · rw [if_neg hc] at h ⊢
    cases hf : placesFrame fs now jd cp with
    | error e =>
      rw [hf] at h
      dsimp only at h
      exact absurd h (by simp)
    | ok df => exact ⟨df, rfl, rfl⟩

theorem load_svi_data_ok (fs : String → List SviCsvRow) (db : DB) (now : String)
    (jd : Option Json) (cp : Option String) (api : Option ApiResponse) (n : Nat)
    (h : (load_svi_data fs db now jd cp api).result = .ok n) :
    ∃ jd' df, sviFrame fs now jd' cp = .ok df ∧
      load_svi_data fs db now jd cp api = sviWrite db now df := by
  unfold load_svi_data at h ⊢
  cases api with
  | none =>
    obtain ⟨df, hdf, heq⟩ := loadSviChecked_ok fs db now jd cp n h
    exact ⟨jd, df, hdf, heq⟩
  | some r =>
    dsimp only at h ⊢
    by_cases hs : (r.status_code == 200) = true
    · rw [if_pos hs] at h ⊢
      obtain ⟨df, hdf, heq⟩ := loadSviChecked_ok fs db now r.body cp n h
      exact ⟨r.body, df, hdf, heq⟩
    · rw [if_neg hs] at h
      simp at h

theorem load_places_data_ok (fs : String → List PlacesCsvRow) (db : DB)
    (now : String) (jd : Option Json) (cp : Option String)
    (api : Option ApiResponse) (n : Nat)
    (h : (load_places_data fs db now jd cp api).result = .ok n) :
    ∃ jd' df, placesFrame fs now jd' cp = .ok df ∧
      load_places_data fs db now jd cp api = placesWrite db now df := by
  unfold load_places_data at h ⊢
  cases api with
  | none =>
    obtain ⟨df, hdf, heq⟩ := loadPlacesChecked_ok fs db now jd cp n h
    exact ⟨jd, df, hdf, heq⟩
  | some r =>
    dsimp only at h ⊢
    by_cases hs : (r.status_code == 200) = true
    · rw [if_pos hs] at h ⊢
      obtain ⟨df, hdf, heq⟩ := loadPlacesChecked_ok fs db now r.body cp n h
      exact ⟨r.body, df, hdf, heq⟩
    · rw [if_neg hs] at h
      simp at h

/-- C6: each load call captures a single timestamp `now` once; on a
successful call that writes `n > 0` rows, the written rows are exactly a
suffix appended to the destination table, every one of them carries that
identical timestamp in `last_updated`, and the registry row of the matching
source (`CDC_SVI` / `CDC_PLACES`) is stamped with the same value. -/
theorem C6_single_timestamp :
    (∀ (fs : String → List SviCsvRow) (db : DB) (now : String)
        (jd : Option Json) (cp : Option String) (api : Option ApiResponse)
        (n : Nat), 0 < n →
      (load_svi_data fs db now jd cp api).result = .ok n →
      ∃ newRows,
        (load_svi_data fs db now jd cp api).db.svi_data =
          db.svi_data ++ newRows ∧
        newRows.length = n ∧
        (∀ row ∈ newRows, row.last_updated = now) ∧
        (∀ s ∈ (load_svi_data fs db now jd cp api).db.data_sources,
          s.source_name = "CDC_SVI" → s.last_updated = some now)) ∧
    (∀ (pfs : String → List PlacesCsvRow) (db : DB) (now : String)
        (jd : Option Json) (cp : Option String) (api : Option ApiResponse)
        (n : Nat), 0 < n →
      (load_places_data pfs db now jd cp api).result = .ok n →
      ∃ newRows,
        (load_places_data pfs db now jd cp api).db.places_data =
          db.places_data ++ newRows ∧
        newRows.length = n ∧
        (∀ row ∈ newRows, row.last_updated = now) ∧
        (∀ s ∈ (load_places_data pfs db now jd cp api).db.data_sources,
          s.source_name = "CDC_PLACES" → s.last_updated = some now)) := by
  constructor
  · intro fs db now jd cp api n hn h
    obtain ⟨jd', df, hdf, heq⟩ := load_svi_data_ok fs db now jd cp api n h
    rw [heq] at h ⊢
    obtain ⟨records, rows, hdfeq, hneq, hlen, hmem, hw⟩ :=
      sviWrite_ok db now df n h hn
    subst hdfeq
    rw [hw]
    refine ⟨rows, rfl, hlen.trans hneq.symm, ?_, ?_⟩
    · intro row hrow
      obtain ⟨rec, hrec, hbr⟩ := hmem row hrow
      rw [sviRowOfRecord_stamp rec row hbr]
      exact sviFrame_stamp fs now jd' cp records hdf rec hrec
    · intro s hs hname
      exact updateSourceTime_stamped _ _ _ s hs hname
  · intro pfs db now jd cp api n hn h
    obtain ⟨jd', df, hdf, heq⟩ := load_places_data_ok pfs db now jd cp api n h
    rw [heq] at h ⊢
    obtain ⟨records, rows, hdfeq, hneq, hlen, hmem, hw⟩ :=
      placesWrite_ok db now df n h hn
    subst hdfeq
    rw [hw]
    refine ⟨rows, rfl, hlen.trans hneq.symm, ?_, ?_⟩
    · intro row hrow
      obtain ⟨rec, hrec, hbr⟩ := hmem row hrow
      rw [placesRowOfRecord_stamp rec row hbr]
      exact placesFrame_stamp pfs now jd' cp records hdf rec hrec
    · intro s hs hname
      exact updateSourceTime_stamped _ _ _ s hs hname

theorem C6_witness :
    ∃ newRows,
      (load_svi_data sviFsEmpty dbPrepared "t1"
          (some sviPayloadA) none none).db.svi_data =
        dbPrepared.svi_data ++ newRows ∧
      newRows.length = 1 ∧
      (∀ row ∈ newRows, row.last_updated = "t1") ∧
      (∀ s ∈ (load_svi_data sviFsEmpty dbPrepared "t1"
          (some sviPayloadA) none none).db.data_sources,
        s.source_name = "CDC_SVI" → s.last_updated = some "t1") :=
  C6_single_timestamp.1 sviFsEmpty dbPrepared "t1" (some sviPayloadA)
    none none 1 (by decide) (by decide)
